import Mathlib

/-!
Shallow embedding of the order-management subsystem of the shopAdmin
repository (src/pages/Orders.js), covering the status workflow engine
(`updateOrderStatus`), the shipping/tracking attachment (`addTracking`),
the derived total (`getOrderTotal`), the filter engine (`applyFilters`)
and the bulk-operation guard (`handleBulkOperation`).

Modelling conventions:
* JavaScript numbers appearing as money totals are modelled as `Int`;
  item prices and quantities as `Nat` (the domain is nonnegative money).
  A field that is `null`/`undefined`/`NaN` (all skipped by the source's
  candidate check) is modelled as `none`.
* Firestore timestamps and parsed dates are modelled as `Option Nat`
  (milliseconds); `none` stands for a missing `createdAt` resp. a missing
  or unparseable `orderDate` (an `Invalid Date` in the source, whose NaN
  comparisons are all false).
* The persistence collaborator (Firestore `getDoc`/`updateDoc`), the
  `window.confirm` dialog and the current time are passed explicitly;
  engine operations return the attempted write payloads, the resulting
  local working copy and a result value standing for the surfaced
  toast/notification outcome.
-/

namespace ShopAdmin

/-- One entry of an order's append-only status history. -/
structure HistoryEntry where
  status : String
  timestamp : Nat
  note : String
  deriving Repr, DecidableEq

/-- Tracking data attached on shipping (`{code, carrier}` in the source). -/
structure Tracking where
  code : String
  carrier : String
  deriving Repr, DecidableEq

/-- One ordered item (`{name, price, quantity}`); `price`/`quantity` may be
absent on legacy records (the source defaults them with `|| 0`). -/
structure OrderItem where
  name : String
  price : Option Nat := none
  quantity : Option Nat := none
  deriving Repr, DecidableEq

/-- The order record as consumed by `Orders.js`, with the optional fields the
code probes (`order.total`, `order.financials?.total`, ...) flattened into
optional fields. -/
structure Order where
  id : String
  orderId : Option String := none
  status : String
  priority : Option String := none
  userName : Option String := none
  userEmail : Option String := none
  userPhone : Option String := none
  items : Option (List OrderItem) := none
  total : Option Int := none
  amount : Option Int := none
  grandTotal : Option Int := none
  finalAmount : Option Int := none
  orderTotal : Option Int := none
  financialsTotal : Option Int := none
  paymentAmount : Option Int := none
  summaryTotal : Option Int := none
  pricingTotal : Option Int := none
  tracking : Option Tracking := none
  adminNotes : Option String := none
  statusHistory : Option (List HistoryEntry) := none
  createdAt : Option Nat := none
  orderDate : Option Nat := none
  deriving Repr, DecidableEq

/-! ## Order Record Model: `getOrderTotal` (Orders.js lines 337-380) -/

/-- The ordered candidate total fields probed by `getOrderTotal`. -/
def candidateTotals (o : Order) : List (Option Int) :=
  [o.total, o.amount, o.grandTotal, o.finalAmount, o.orderTotal,
   o.financialsTotal, o.paymentAmount, o.summaryTotal, o.pricingTotal]

/-- The source's scan loop: first field that is not null, not undefined,
not `0` (and numeric, absorbed into `some`). -/
def firstQualifying : List (Option Int) → Option Int
  | [] => none
  | f :: rest =>
    match f with
    | some v => if v ≠ 0 then some v else firstQualifying rest
    | none => firstQualifying rest

/-- `(item.price || 0) * (item.quantity || 0)`. -/
def itemTotal (it : OrderItem) : Nat :=
  it.price.getD 0 * it.quantity.getD 0

/-- The source's `items.reduce((sum, item) => sum + itemTotal, 0)`. -/
def itemsSum (items : List OrderItem) : Nat :=
  items.foldl (fun s it => s + itemTotal it) 0

/-- `getOrderTotal` from Orders.js: first qualifying candidate field, else
the item sum when positive, else `0`. -/
def getOrderTotal (o : Order) : Int :=
  match firstQualifying (candidateTotals o) with
  | some v => v
  | none =>
    match o.items with
    | some items =>
      let calculated := itemsSum items
      if 0 < calculated then (calculated : Int) else 0
    | none => 0

/-- Written from the spec's words for `effectiveTotal` (section 4.1): the
first present, non-null, non-zero value among the ordered candidate fields;
if none qualify, `Σ item.price × item.quantity` over `items`; if still
zero or absent, `0`. Used to compare the source's `getOrderTotal` against
the spec contract. -/
def effectiveTotalSpec (o : Order) : Int :=
  match (candidateTotals o).findSome?
      (fun f => match f with
        | some v => if v = 0 then none else some v
        | none => none) with
  | some v => v
  | none =>
    match o.items with
    | some items => (itemsSum items : Int)
    | none => 0

/-! ## Status Workflow Engine: `updateOrderStatus` (Orders.js lines 525-595) -/

/-- Outcome surfaced to the operator by an engine call: success toast,
silent abort after a declined confirmation, validation toast, "Order not
found" failure, or the persistence collaborator's failure message. -/
inductive TransitionResult where
  | ok
  | cancelled
  | validationError
  | notFound
  | persistenceError (msg : String)
  deriving Repr, DecidableEq

/-- Payload of the single `updateDoc` issued by `updateOrderStatus`:
the new status together with the extended history, in one combined write. -/
structure StatusWrite where
  status : String
  statusHistory : List HistoryEntry
  deriving Repr, DecidableEq

/-- Payload of the single `updateDoc` issued by `addTracking`. -/
structure TrackingWrite where
  status : String
  tracking : Tracking
  statusHistory : List HistoryEntry
  deriving Repr, DecidableEq

/-- The collaborators consumed by one engine call: the `getDoc` re-fetch
result, the `updateDoc` outcome, and the `window.confirm` reply. -/
structure PersistenceEnv where
  fetched : Option Order
  writeResult : Except String Unit
  confirmAnswer : Bool

/-- JavaScript `toLowerCase()`, written as a structural map over the
characters (the statuses and search data are ASCII). -/
def jsToLower (s : String) : String := ⟨s.data.map Char.toLower⟩

/-- `additionalInfo.note || «Order <status> by admin»` — note that `||`
falls back to the default on an empty (falsy) string as well. -/
def noteOrDefault (note : Option String) (newStatus : String) : String :=
  match note with
  | some n => if n = "" then "Order " ++ jsToLower newStatus ++ " by admin" else n
  | none => "Order " ++ jsToLower newStatus ++ " by admin"

/-- The `setOrders(prev => prev.map(...))` local mirror after a successful
status write. -/
def localAfterStatus (orders : List Order) (orderId newStatus : String)
    (entry : HistoryEntry) : List Order :=
  orders.map fun o =>
    if o.id = orderId then
      { o with status := newStatus,
               statusHistory := some (o.statusHistory.getD [] ++ [entry]) }
    else o

/-- Result of one `updateOrderStatus` call: surfaced outcome, the list of
`updateDoc` writes attempted, and the local working copy afterwards. -/
structure UpdateOutcome where
  result : TransitionResult
  writes : List StatusWrite
  orders : List Order
  deriving Repr, DecidableEq

/-- `updateOrderStatus(orderId, newStatus, additionalInfo)` from Orders.js:
re-fetch the order, confirm destructive targets, build the history entry,
issue one combined write of `status` and `statusHistory`, mirror locally on
success. There is no reachability validation of `newStatus`. -/
def updateOrderStatus (env : PersistenceEnv) (orders : List Order)
    (orderId newStatus : String) (note : Option String) (now : Nat) :
    UpdateOutcome :=
  match env.fetched with
  | none => ⟨.notFound, [], orders⟩
  | some orderData =>
    if (newStatus == "Declined" || newStatus == "Cancelled")
        && !env.confirmAnswer then
      ⟨.cancelled, [], orders⟩
    else
      let entry : HistoryEntry :=
        ⟨newStatus, now, noteOrDefault note newStatus⟩
      let payload : StatusWrite :=
        ⟨newStatus, orderData.statusHistory.getD [] ++ [entry]⟩
      match env.writeResult with
      | .error msg => ⟨.persistenceError msg, [payload], orders⟩
      | .ok _ => ⟨.ok, [payload], localAfterStatus orders orderId newStatus entry⟩

/-! ## Shipping/Tracking Attachment: `addTracking` (Orders.js lines 601-666) -/

/-- Result of one `addTracking` call. -/
structure TrackingOutcome where
  result : TransitionResult
  writes : List TrackingWrite
  orders : List Order
  deriving Repr, DecidableEq

/-- `addTracking` from Orders.js: aborts with a validation toast when no
order is selected or the tracking number is empty (falsy); otherwise issues
one combined write setting `status = 'Shipped'`, the tracking data and the
extended history, mirroring locally on success. Neither the order's current
status nor the carrier is validated. -/
def addTracking (writeResult : Except String Unit) (orders : List Order)
    (selectedOrder : Option Order) (trackingNumber carrier : String)
    (now : Nat) : TrackingOutcome :=
  match selectedOrder with
  | none => ⟨.validationError, [], orders⟩
  | some sel =>
    if trackingNumber == "" then ⟨.validationError, [], orders⟩
    else
      let trackingData : Tracking := ⟨trackingNumber, carrier⟩
      let entry : HistoryEntry :=
        ⟨"Shipped", now, "Shipped with tracking code: " ++ trackingNumber⟩
      let payload : TrackingWrite :=
        ⟨"Shipped", trackingData, sel.statusHistory.getD [] ++ [entry]⟩
      match writeResult with
      | .error msg => ⟨.persistenceError msg, [payload], orders⟩
      | .ok _ =>
        ⟨.ok, [payload],
          orders.map fun o =>
            if o.id = sel.id then
              { o with status := "Shipped", tracking := some trackingData,
                       statusHistory := some (o.statusHistory.getD [] ++ [entry]) }
            else o⟩

/-! ## Transition table and UI gating -/

/-- The allowed-target table of the spec (section 4.2): source status to the
set of reachable targets; terminal states have no targets. -/
def allowedTargets : String → List String
  | "Placed" => ["Approved", "Declined", "Cancelled"]
  | "Approved" => ["Packed", "Cancelled"]
  | "Packed" => ["Shipped", "Cancelled"]
  | "Shipped" => ["Delivered"]
  | "Delivered" => ["Refunded"]
  | _ => []

/-- The targets the Orders.js UI actually passes to `updateOrderStatus`,
read off its call sites (lines 1334-1386 and 1903-1950): Placed offers
Approve/Decline, Approved offers Mark Packed, Shipped offers Mark
Delivered; the Packed state instead opens the shipping modal. -/
def uiStatusActions : String → List String
  | "Placed" => ["Approved", "Declined"]
  | "Approved" => ["Packed"]
  | "Shipped" => ["Delivered"]
  | _ => []

/-- The UI renders the Add Shipping action (leading to `addTracking`) only
for orders in status Packed (Orders.js lines 1368 and 1931). -/
def uiOffersAddShipping (o : Order) : Bool :=
  o.status == "Packed"

/-! ## Filter & Search Engine: `applyFilters` (Orders.js lines 391-472) -/

/-- The date-range inputs of the filter state, as parsed day timestamps in
milliseconds; `none` models an empty (falsy) date field. -/
structure DateRangeFilter where
  startDate : Option Nat := none
  endDate : Option Nat := none
  deriving Repr, DecidableEq

/-- The filter state of the Orders page. `minAmount` holds the
`parseFloat` of the text field when it is numeric, `none` when the field is
empty or non-numeric (in which case the source skips the predicate). -/
structure Filters where
  status : String := "all"
  priority : String := "all"
  searchTerm : String := ""
  dateRange : DateRangeFilter := {}
  minAmount : Option Int := none
  carrier : String := "all"
  deriving Repr, DecidableEq

/-- `needle` occurs as a contiguous run inside `hay`. -/
def hasInfix (needle : List Char) : List Char → Bool
  | [] => needle.isEmpty
  | c :: rest => needle.isPrefixOf (c :: rest) || hasInfix needle rest

/-- JavaScript `hay.includes(needle)` on strings. -/
def containsSub (hay needle : String) : Bool :=
  hasInfix needle.toList hay.toList

/-- `field?.toLowerCase().includes(term)` — an absent field never matches. -/
def optContains (field : Option String) (term : String) : Bool :=
  match field with
  | some s => containsSub (jsToLower s) term
  | none => false

/-- The search predicate of Orders.js: case-insensitive substring match on
order id fields, customer fields, item names, tracking code and admin
notes; `term` is the already lowercased and trimmed search term. -/
def matchesSearch (o : Order) (term : String) : Bool :=
  optContains o.orderId term ||
  containsSub (jsToLower o.id) term ||
  optContains o.userName term ||
  optContains o.userEmail term ||
  optContains o.userPhone term ||
  (match o.items with
   | some items => items.any fun it => containsSub (jsToLower it.name) term
   | none => false) ||
  (match o.tracking with
   | some t => containsSub (jsToLower t.code) term
   | none => false) ||
  optContains o.adminNotes term

/-- `endDate.setHours(23, 59, 59, 999)` — end of day in milliseconds. -/
def endOfDay (d : Nat) : Nat := d + 86399999

/-- `order.createdAt?.toDate?.() || new Date(order.orderDate)`: prefer the
`createdAt` timestamp, else the parsed `orderDate`; `none` stands for the
resulting `Invalid Date`. -/
def effectiveDate (o : Order) : Option Nat :=
  match o.createdAt with
  | some t => some t
  | none => o.orderDate

/-- The date-range predicate body of `applyFilters`. An order with no
usable creation date yields NaN comparisons in the source, which are all
false, so neither bound can reject it and the order passes. -/
def withinDateRange (dr : DateRangeFilter) (o : Order) : Bool :=
  match effectiveDate o with
  | none => true
  | some d =>
    (match dr.startDate with
     | some s => decide (s ≤ d)
     | none => true) &&
    (match dr.endDate with
     | some e => decide (d ≤ endOfDay e)
     | none => true)

/-- `filters.status && filters.status !== 'all'`. -/
def statusActive (f : Filters) : Bool :=
  f.status != "" && f.status != "all"

/-- `filters.priority && filters.priority !== 'all'`. -/
def priorityActive (f : Filters) : Bool :=
  f.priority != "" && f.priority != "all"

/-- `filters.searchTerm && filters.searchTerm.trim()`. -/
def searchActive (f : Filters) : Bool :=
  f.searchTerm != "" && f.searchTerm.trim != ""

/-- `filters.carrier && filters.carrier !== 'all'`. -/
def carrierActive (f : Filters) : Bool :=
  f.carrier != "" && f.carrier != "all"

/-- `filters.dateRange.startDate || filters.dateRange.endDate`. -/
def dateActive (f : Filters) : Bool :=
  f.dateRange.startDate.isSome || f.dateRange.endDate.isSome

/-- `order.tracking?.carrier === filters.carrier`. -/
def carrierMatches (o : Order) (carrier : String) : Bool :=
  match o.tracking with
  | some t => t.carrier == carrier
  | none => false

/-- `applyFilters` from Orders.js: the six guarded `.filter` passes applied
in sequence over the working list. -/
def applyFilters (orders : List Order) (f : Filters) : List Order :=
  let l := orders
  let l := if statusActive f then l.filter (fun o => o.status == f.status) else l
  let l := if priorityActive f then
             l.filter (fun o => o.priority.getD "Normal" == f.priority)
           else l
  let l := if searchActive f then
             l.filter (fun o => matchesSearch o (jsToLower f.searchTerm).trim)
           else l
  let l := match f.minAmount with
           | some m => l.filter (fun o => decide (m ≤ getOrderTotal o))
           | none => l
  let l := if carrierActive f then l.filter (fun o => carrierMatches o f.carrier) else l
  let l := if dateActive f then l.filter (fun o => withinDateRange f.dateRange o) else l
  l

/-- Written from the spec's words for the filter contract (section 4.4):
the conjunction of the six predicates, each treated as always true when its
filter is inactive. Used to compare the sequential `applyFilters` against
the spec's conjunctive contract. -/
def filterPredSpec (f : Filters) (o : Order) : Bool :=
  (!statusActive f || o.status == f.status) &&
  (!priorityActive f || o.priority.getD "Normal" == f.priority) &&
  (!searchActive f || matchesSearch o (jsToLower f.searchTerm).trim) &&
  (match f.minAmount with
   | some m => decide (m ≤ getOrderTotal o)
   | none => true) &&
  (!carrierActive f || carrierMatches o f.carrier) &&
  (!dateActive f || withinDateRange f.dateRange o)

/-! ## Bulk Operation Orchestrator guard: `handleBulkOperation`
(Orders.js lines 675-736) -/

/-- Result of one `handleBulkOperation` call: the ids handed to
`AdminOrderService.bulkOperation` (empty when nothing was dispatched), the
selection set and bulk-mode flag afterwards. -/
structure BulkOutcome where
  dispatchedIds : List String
  selection : List String
  bulkMode : Bool
  deriving Repr, DecidableEq

/-- `handleBulkOperation` from Orders.js: rejects an empty selection with a
toast, asks for confirmation, and only then dispatches the whole id set to
the admin order service; on a successful run the selection is cleared and
bulk mode exited. -/
def handleBulkOperation (confirmAnswer : Bool) (selectedOrderIds : List String)
    (bulkMode : Bool) (serviceOk : Bool) : BulkOutcome :=
  if selectedOrderIds.length = 0 then
    ⟨[], selectedOrderIds, bulkMode⟩
  else if !confirmAnswer then
    ⟨[], selectedOrderIds, bulkMode⟩
  else if serviceOk then
    ⟨selectedOrderIds, [], false⟩
  else
    ⟨selectedOrderIds, selectedOrderIds, bulkMode⟩

/-! ## Concrete records used by instances and counterexamples -/

/-- A freshly placed order with an empty history. -/
def orderPlaced : Order := { id := "p1", status := "Placed", statusHistory := some [] }

/-- A packed order awaiting tracking. -/
def orderPacked : Order := { id := "k1", status := "Packed", statusHistory := some [] }

/-- A delivered order, from which most targets are unreachable. -/
def orderDelivered : Order := { id := "o9", status := "Delivered", statusHistory := some [] }

/-- The spec's round-trip order: only `items` populated with
`[{price:100, quantity:2}, {price:50, quantity:1}]` and no total fields. -/
def sampleItemsOrder : Order :=
  { id := "o1", status := "Placed",
    items := some [⟨"A", some 100, some 2⟩, ⟨"B", some 50, some 1⟩] }

/-- The scenario filter `{status: 'Placed', minAmount: '500'}`. -/
def filterPlacedMin500 : Filters := { status := "Placed", minAmount := some 500 }

/-! ## Helper lemmas -/

/-- The source's candidate scan agrees with a `findSome?` over the
qualification test. -/
theorem firstQualifying_eq_findSome (l : List (Option Int)) :
    firstQualifying l =
      l.findSome? (fun f => match f with
        | some v => if v = 0 then none else some v
        | none => none) := by
  induction l with
  | nil => rfl
  | cons f rest ih =>
    cases f with
    | none => simpa [firstQualifying, List.findSome?] using ih
    | some v =>
      by_cases hv : v = 0
      · subst hv
        simpa [firstQualifying, List.findSome?] using ih
      · simp [firstQualifying, List.findSome?, hv]

/-- A guarded filter pass is a single filter by the implication predicate. -/
theorem guardedFilter (c : Bool) (p : α → Bool) (l : List α) :
    (if c then l.filter p else l) = l.filter (fun a => !c || p a) := by
  cases c <;> simp

/-- The confirmation guard of `updateOrderStatus` cannot fire when the
confirmation callback answers yes on destructive targets. -/
theorem guardFalse (newStatus : String) (c : Bool)
    (hc : newStatus = "Declined" ∨ newStatus = "Cancelled" → c = true) :
    ((newStatus == "Declined" || newStatus == "Cancelled") && !c) = false := by
  by_cases hS : newStatus = "Declined" ∨ newStatus = "Cancelled"
  · simp [hc hS]
  · push_neg at hS
    simp [hS.1, hS.2]

/-! ## Claim theorems -/

/-- Claim C4: `getOrderTotal` returns the first present, non-null,
non-zero candidate total field in the documented order, else the item sum,
else `0`; on the order with only items `[{100,2},{50,1}]` it returns 250. -/
theorem claim4_effectiveTotal :
    (∀ o : Order, getOrderTotal o = effectiveTotalSpec o) ∧
    getOrderTotal sampleItemsOrder = 250 := by
  refine ⟨fun o => ?_, by decide⟩
  unfold getOrderTotal effectiveTotalSpec
  rw [firstQualifying_eq_findSome]
  cases (candidateTotals o).findSome? (fun f => match f with
      | some v => if v = 0 then none else some v
      | none => none) with
  | some v => rfl
  | none =>
    cases o.items with
    | none => rfl
    | some items =>
      rcases Nat.eq_zero_or_pos (itemsSum items) with h | h
      · simp [h]
      · simp [h]

/-- Claim C5: `applyFilters` returns exactly the input's subsequence of
orders satisfying the conjunction of the active predicates, preserving
input order; with filter `{status: 'Placed', minAmount: '500'}` it keeps
exactly the orders with status `Placed` and total at least 500. -/
theorem claim5_applyFilters_conjunctive :
    (∀ (orders : List Order) (f : Filters),
      applyFilters orders f = orders.filter (filterPredSpec f)) ∧
    (∀ (orders : List Order) (f : Filters),
      (applyFilters orders f).Sublist orders) ∧
    (∀ orders : List Order,
      applyFilters orders filterPlacedMin500 =
        orders.filter (fun o =>
          o.status == "Placed" && decide ((500 : Int) ≤ getOrderTotal o))) := by
  have main : ∀ (orders : List Order) (f : Filters),
      applyFilters orders f = orders.filter (filterPredSpec f) := by
    intro orders f
    cases hm : f.minAmount with
    | none =>
      simp only [applyFilters, hm, guardedFilter]
      simp only [List.filter_filter]
      refine List.filter_congr ?_
      intro o _
      simp only [filterPredSpec, hm]
      cases statusActive f <;> cases priorityActive f <;> cases searchActive f <;>
        cases carrierActive f <;> cases dateActive f <;>
        simp [Bool.and_assoc, Bool.and_comm, Bool.and_left_comm]
    | some m =>
      simp only [applyFilters, hm, guardedFilter]
      simp only [List.filter_filter]
      refine List.filter_congr ?_
      intro o _
      simp only [filterPredSpec, hm]
      cases statusActive f <;> cases priorityActive f <;> cases searchActive f <;>
        cases carrierActive f <;> cases dateActive f <;>
        simp [Bool.and_assoc, Bool.and_comm, Bool.and_left_comm]
  refine ⟨main, fun orders f => ?_, fun orders => ?_⟩
  · rw [main]
    exact List.filter_sublist orders
  · rw [main]
    refine List.filter_congr ?_
    intro o _
    simp [filterPredSpec, filterPlacedMin500, statusActive, priorityActive,
      searchActive, carrierActive, dateActive]

/-- A placed-order environment with a successful write and an affirmative
confirmation. -/
def envPlacedOk : PersistenceEnv := ⟨some orderPlaced, .ok (), true⟩

/-- Claim C1 counterexample: `Approved` is not reachable from `Delivered`,
yet `updateOrderStatus` reports success, attempts a persistence write and
changes the local order — the engine performs no transition validation. -/
theorem claim1_counterexample :
    "Approved" ∉ allowedTargets "Delivered" ∧
    (updateOrderStatus ⟨some orderDelivered, Except.ok (), true⟩ [orderDelivered]
        "o9" "Approved" none 0).result = TransitionResult.ok ∧
    (updateOrderStatus ⟨some orderDelivered, Except.ok (), true⟩ [orderDelivered]
        "o9" "Approved" none 0).writes ≠ [] ∧
    (updateOrderStatus ⟨some orderDelivered, Except.ok (), true⟩ [orderDelivered]
        "o9" "Approved" none 0).orders ≠ [orderDelivered] := by decide

/-- Claim C1 (amended): `updateOrderStatus` never rejects a target status
for unreachability — whenever the order is found, the write succeeds and
any destructive target is confirmed, the call succeeds for every target;
unreachable transitions are prevented only by the UI, whose offered
targets are always within the allowed-target table. -/
theorem claim1_amended :
    (∀ (env : PersistenceEnv) (orders : List Order) (orderId newStatus : String)
        (note : Option String) (now : Nat) (d : Order),
      env.fetched = some d →
      env.writeResult = .ok () →
      (newStatus = "Declined" ∨ newStatus = "Cancelled" → env.confirmAnswer = true) →
      (updateOrderStatus env orders orderId newStatus note now).result = .ok ∧
      (updateOrderStatus env orders orderId newStatus note now).writes ≠ []) ∧
    (∀ s t, t ∈ uiStatusActions s → t ∈ allowedTargets s) := by
  constructor
  · intro env orders orderId newStatus note now d hf hw hc
    have hg := guardFalse newStatus env.confirmAnswer hc
    constructor
    · simp [updateOrderStatus, hf, hw, hg]
    · simp [updateOrderStatus, hf, hw, hg]
  · intro s t ht
    unfold uiStatusActions at ht
    split at ht
    · fin_cases ht <;> decide
    · fin_cases ht
      decide
    · fin_cases ht
      decide
    · simp at ht

/-- Claim C1 witness: a benign transition (`Placed` to `Approved`) through
the amended theorem. -/
theorem claim1_amended_witness :
    envPlacedOk.fetched = some orderPlaced ∧
    ((updateOrderStatus envPlacedOk [orderPlaced] "p1" "Approved" none 3).result = .ok ∧
     (updateOrderStatus envPlacedOk [orderPlaced] "p1" "Approved" none 3).writes ≠ []) :=
  ⟨rfl, claim1_amended.1 envPlacedOk [orderPlaced] "p1" "Approved" none 3 orderPlaced
    rfl rfl (by decide)⟩

/-- Claim C2 counterexample: `addTracking` succeeds on an order whose
status is `Delivered`, not `Packed`, attempting the write and moving the
order to `Shipped` — the engine does not check the Packed precondition. -/
theorem claim2_counterexample :
    orderDelivered.status ≠ "Packed" ∧
    (addTracking (Except.ok ()) [orderDelivered] (some orderDelivered)
        "TRK1" "IndiaPost" 0).result = TransitionResult.ok ∧
    (addTracking (Except.ok ()) [orderDelivered] (some orderDelivered)
        "TRK1" "IndiaPost" 0).writes ≠ [] ∧
    (∀ o ∈ (addTracking (Except.ok ()) [orderDelivered] (some orderDelivered)
        "TRK1" "IndiaPost" 0).orders, o.status = "Shipped") := by decide

/-- Claim C2 (amended): `addTracking` checks only that an order is selected
and the tracking code is non-empty — the current status is never validated
by the engine; on success it writes and mirrors status `Shipped` with the
supplied tracking code and carrier. The Packed-only restriction lives in
the UI, which offers the shipping action exactly for Packed orders. -/
theorem claim2_amended :
    (∀ (writeResult : Except String Unit) (orders : List Order) (sel : Order)
        (code carrier : String) (now : Nat),
      code ≠ "" → writeResult = .ok () →
      (addTracking writeResult orders (some sel) code carrier now).result = .ok ∧
      (addTracking writeResult orders (some sel) code carrier now).writes =
        [⟨"Shipped", ⟨code, carrier⟩,
          sel.statusHistory.getD [] ++
            [⟨"Shipped", now, "Shipped with tracking code: " ++ code⟩]⟩] ∧
      (∀ o ∈ (addTracking writeResult orders (some sel) code carrier now).orders,
        o.id = sel.id → o.status = "Shipped" ∧ o.tracking = some ⟨code, carrier⟩)) ∧
    (∀ o : Order, uiOffersAddShipping o = true ↔ o.status = "Packed") := by
  constructor
  · intro writeResult orders sel code carrier now hcode hwr
    subst hwr
    have hc : (code == "") = false := by simp [hcode]
    refine ⟨by simp [addTracking, hc], by simp [addTracking, hc], ?_⟩
    intro o ho hid
    simp only [addTracking, hc] at ho
    simp at ho
    obtain ⟨y, hy, hfy⟩ := ho
    by_cases hyid : y.id = sel.id
    · rw [if_pos hyid] at hfy
      subst hfy
      exact ⟨rfl, rfl⟩
    · rw [if_neg hyid] at hfy
      subst hfy
      exact absurd hid hyid
  · intro o
    simp [uiOffersAddShipping]

/-- Claim C2 witness: attaching tracking to a packed order through the
amended theorem. -/
theorem claim2_amended_witness :
    "TRK9" ≠ "" ∧
    (addTracking (Except.ok ()) [orderPacked] (some orderPacked)
        "TRK9" "IndiaPost" 7).result = .ok :=
  ⟨by decide,
   (claim2_amended.1 (Except.ok ()) [orderPacked] orderPacked "TRK9" "IndiaPost" 7
      (by decide) rfl).1⟩

/-- Claim C3 counterexample: with a supplied (but empty) note, the entry
written for a reachable transition carries the default text rather than the
supplied note — `||` treats the empty string as absent, unlike the claimed
`info.note` semantics. -/
theorem claim3_counterexample :
    "Approved" ∈ allowedTargets orderPlaced.status ∧
    (updateOrderStatus ⟨some orderPlaced, Except.ok (), true⟩ [orderPlaced]
        "p1" "Approved" (some "") 0).writes =
      [⟨"Approved", [⟨"Approved", 0, "Order approved by admin"⟩]⟩] ∧
    "Order approved by admin" ≠ "" := by decide

/-- Claim C3 (amended): a successful transition to a reachable status
appends exactly one history entry with that status, whose note is the
supplied note when it is non-empty and the default
`Order <status, lowercased> by admin` when the note is absent or empty;
status and the extended history go out in one combined write and both
fields are mirrored into the local working copy. -/
theorem claim3_amended :
    ∀ (env : PersistenceEnv) (orders : List Order) (orderId newStatus : String)
      (note : Option String) (now : Nat) (d : Order),
      env.fetched = some d →
      env.writeResult = .ok () →
      (newStatus = "Declined" ∨ newStatus = "Cancelled" → env.confirmAnswer = true) →
      newStatus ∈ allowedTargets d.status →
      (updateOrderStatus env orders orderId newStatus note now).result = .ok ∧
      (updateOrderStatus env orders orderId newStatus note now).writes =
        [⟨newStatus, d.statusHistory.getD [] ++
          [⟨newStatus, now, noteOrDefault note newStatus⟩]⟩] ∧
      (updateOrderStatus env orders orderId newStatus note now).orders =
        localAfterStatus orders orderId newStatus
          ⟨newStatus, now, noteOrDefault note newStatus⟩ ∧
      (∀ n, note = some n → n ≠ "" → noteOrDefault note newStatus = n) ∧
      (note = none ∨ note = some "" →
        noteOrDefault note newStatus = "Order " ++ jsToLower newStatus ++ " by admin") := by
  intro env orders orderId newStatus note now d hf hw hc hreach
  have hg := guardFalse newStatus env.confirmAnswer hc
  refine ⟨?_, ?_, ?_, ?_, ?_⟩
  · simp [updateOrderStatus, hf, hw, hg]
  · simp [updateOrderStatus, hf, hw, hg]
  · simp [updateOrderStatus, hf, hw, hg]
  · intro n hn hne
    subst hn
    simp [noteOrDefault, hne]
  · rintro (hn | hn) <;> subst hn <;> simp [noteOrDefault]

/-- Claim C3 witness: the `Placed` to `Approved` transition with no note
through the amended theorem. -/
theorem claim3_amended_witness :
    "Approved" ∈ allowedTargets orderPlaced.status ∧
    (updateOrderStatus envPlacedOk [orderPlaced] "p1" "Approved" none 5).result = .ok :=
  ⟨by decide,
   (claim3_amended envPlacedOk [orderPlaced] "p1" "Approved" none 5 orderPlaced
      rfl rfl (by decide) (by decide)).1⟩

/-- Claim C6: transitions into `Declined` or `Cancelled` ask
`window.confirm` first; a declined confirmation aborts the call with no
write, no local change and no status/history change, and a write for a
destructive target can only have happened after an affirmative answer. -/
theorem claim6_confirmation_gate :
    (∀ (env : PersistenceEnv) (orders : List Order) (orderId newStatus : String)
        (note : Option String) (now : Nat) (d : Order),
      env.fetched = some d →
      (newStatus = "Declined" ∨ newStatus = "Cancelled") →
      env.confirmAnswer = false →
      (updateOrderStatus env orders orderId newStatus note now).result = .cancelled ∧
      (updateOrderStatus env orders orderId newStatus note now).writes = [] ∧
      (updateOrderStatus env orders orderId newStatus note now).orders = orders) ∧
    (∀ (env : PersistenceEnv) (orders : List Order) (orderId newStatus : String)
        (note : Option String) (now : Nat),
      (newStatus = "Declined" ∨ newStatus = "Cancelled") →
      (updateOrderStatus env orders orderId newStatus note now).writes ≠ [] →
      env.confirmAnswer = true) := by
  constructor
  · intro env orders orderId newStatus note now d hf hS hcf
    have hg : ((newStatus == "Declined" || newStatus == "Cancelled")
        && !env.confirmAnswer) = true := by
      rcases hS with h | h <;> subst h <;> simp [hcf]
    refine ⟨?_, ?_, ?_⟩ <;> simp [updateOrderStatus, hf, hg]
  · intro env orders orderId newStatus note now hS hw
    cases hconf : env.confirmAnswer with
    | true => rfl
    | false =>
      cases hfet : env.fetched with
      | none => simp [updateOrderStatus, hfet] at hw
      | some d =>
        have hg : ((newStatus == "Declined" || newStatus == "Cancelled")
            && !env.confirmAnswer) = true := by
          rcases hS with h | h <;> subst h <;> simp [hconf]
        simp [updateOrderStatus, hfet, hg] at hw

/-- Claim C6 witness: a declined confirmation on cancelling a placed order
leaves everything untouched. -/
theorem claim6_witness :
    ("Cancelled" = "Declined" ∨ "Cancelled" = "Cancelled") ∧
    (updateOrderStatus ⟨some orderPlaced, Except.ok (), false⟩ [orderPlaced]
        "p1" "Cancelled" none 2).result = .cancelled ∧
    (updateOrderStatus ⟨some orderPlaced, Except.ok (), false⟩ [orderPlaced]
        "p1" "Cancelled" none 2).writes = [] ∧
    (updateOrderStatus ⟨some orderPlaced, Except.ok (), false⟩ [orderPlaced]
        "p1" "Cancelled" none 2).orders = [orderPlaced] :=
  have h := claim6_confirmation_gate.1 ⟨some orderPlaced, Except.ok (), false⟩
    [orderPlaced] "p1" "Cancelled" none 2 orderPlaced rfl (Or.inr rfl) rfl
  ⟨Or.inr rfl, h.1, h.2.1, h.2.2⟩

/-- Claim C7 counterexample: with an empty carrier and a non-empty code,
`addTracking` does not raise a validation error — it reports success and
writes the tracking data with the empty carrier. -/
theorem claim7_counterexample :
    (addTracking (Except.ok ()) [orderPacked] (some orderPacked)
        "TRK1" "" 0).result = TransitionResult.ok ∧
    (addTracking (Except.ok ()) [orderPacked] (some orderPacked)
        "TRK1" "" 0).writes =
      [⟨"Shipped", ⟨"TRK1", ""⟩,
        [⟨"Shipped", 0, "Shipped with tracking code: TRK1"⟩]⟩] := by decide

/-- Claim C7 (amended): `addTracking` aborts before any write with a
validation error when no order is selected or the tracking code is empty;
the carrier is not validated — with any carrier, even empty, a non-empty
code proceeds to the write. -/
theorem claim7_amended :
    (∀ (writeResult : Except String Unit) (orders : List Order)
        (sel : Option Order) (code carrier : String) (now : Nat),
      sel = none ∨ code = "" →
      (addTracking writeResult orders sel code carrier now).result = .validationError ∧
      (addTracking writeResult orders sel code carrier now).writes = [] ∧
      (addTracking writeResult orders sel code carrier now).orders = orders) ∧
    (∀ (orders : List Order) (sel : Order) (code carrier : String) (now : Nat),
      code ≠ "" →
      (addTracking (Except.ok ()) orders (some sel) code carrier now).result = .ok) := by
  constructor
  · intro writeResult orders sel code carrier now h
    rcases h with h | h
    · subst h
      exact ⟨rfl, rfl, rfl⟩
    · subst h
      cases sel with
      | none => exact ⟨rfl, rfl, rfl⟩
      | some o => refine ⟨?_, ?_, ?_⟩ <;> simp [addTracking]
  · intro orders sel code carrier now hcode
    have hc : (code == "") = false := by simp [hcode]
    simp [addTracking, hc]

/-- Claim C7 witness: an empty tracking code aborts; a non-empty code with
an arbitrary carrier proceeds. -/
theorem claim7_amended_witness :
    ((some orderPacked = none ∨ "" = "") ∧
     (addTracking (Except.ok ()) [orderPacked] (some orderPacked)
        "" "IndiaPost" 1).result = .validationError) ∧
    ("T2" ≠ "" ∧
     (addTracking (Except.ok ()) [orderPacked] (some orderPacked)
        "T2" "IndiaPost" 1).result = .ok) :=
  ⟨⟨Or.inr rfl,
    (claim7_amended.1 (Except.ok ()) [orderPacked] (some orderPacked)
      "" "IndiaPost" 1 (Or.inr rfl)).1⟩,
   ⟨by decide,
    claim7_amended.2 [orderPacked] orderPacked "T2" "IndiaPost" 1 (by decide)⟩⟩

/-- Claim C8: `handleBulkOperation` dispatches nothing and leaves the
selection and bulk mode untouched when the selection is empty or the
operator declines the confirmation, and a dispatch can only have happened
with a non-empty selection and an affirmative confirmation. -/
theorem claim8_bulk_guard :
    (∀ (confirmAnswer : Bool) (ids : List String) (bulkMode serviceOk : Bool),
      ids = [] ∨ confirmAnswer = false →
      (handleBulkOperation confirmAnswer ids bulkMode serviceOk).dispatchedIds = [] ∧
      (handleBulkOperation confirmAnswer ids bulkMode serviceOk).selection = ids ∧
      (handleBulkOperation confirmAnswer ids bulkMode serviceOk).bulkMode = bulkMode) ∧
    (∀ (confirmAnswer : Bool) (ids : List String) (bulkMode serviceOk : Bool),
      (handleBulkOperation confirmAnswer ids bulkMode serviceOk).dispatchedIds ≠ [] →
      ids ≠ [] ∧ confirmAnswer = true) := by
  constructor
  · intro confirmAnswer ids bulkMode serviceOk h
    rcases h with h | h
    · subst h
      exact ⟨rfl, rfl, rfl⟩
    · subst h
      by_cases h0 : ids.length = 0 <;>
        refine ⟨?_, ?_, ?_⟩ <;> simp [handleBulkOperation, h0]
  · intro confirmAnswer ids bulkMode serviceOk hne
    by_cases h0 : ids.length = 0
    · simp [handleBulkOperation, h0] at hne
    · cases hconf : confirmAnswer with
      | false => simp [handleBulkOperation, h0, hconf] at hne
      | true =>
        refine ⟨?_, rfl⟩
        intro hnil
        subst hnil
        simp at h0

/-- Claim C8 witness: an empty selection dispatches nothing. -/
theorem claim8_witness :
    (([] : List String) = [] ∨ true = false) ∧
    (handleBulkOperation true [] true true).dispatchedIds = [] :=
  ⟨Or.inl rfl, (claim8_bulk_guard.1 true [] true true (Or.inl rfl)).1⟩

/-- Claim C9: when the persistence write fails, both the status transition
and the tracking attachment surface the collaborator's message as a
persistence error and leave the local working copy completely unchanged. -/
theorem claim9_persistence_failure :
    (∀ (env : PersistenceEnv) (orders : List Order) (orderId newStatus : String)
        (note : Option String) (now : Nat) (d : Order) (msg : String),
      env.fetched = some d →
      env.writeResult = .error msg →
      (newStatus = "Declined" ∨ newStatus = "Cancelled" → env.confirmAnswer = true) →
      (updateOrderStatus env orders orderId newStatus note now).result =
        .persistenceError msg ∧
      (updateOrderStatus env orders orderId newStatus note now).orders = orders) ∧
    (∀ (orders : List Order) (sel : Order) (code carrier : String)
        (now : Nat) (msg : String),
      code ≠ "" →
      (addTracking (.error msg) orders (some sel) code carrier now).result =
        .persistenceError msg ∧
      (addTracking (.error msg) orders (some sel) code carrier now).orders = orders) := by
  constructor
  · intro env orders orderId newStatus note now d msg hf hw hc
    have hg := guardFalse newStatus env.confirmAnswer hc
    exact ⟨by simp [updateOrderStatus, hf, hw, hg], by simp [updateOrderStatus, hf, hw, hg]⟩
  · intro orders sel code carrier now msg hcode
    have hc : (code == "") = false := by simp [hcode]
    exact ⟨by simp [addTracking, hc], by simp [addTracking, hc]⟩

/-- Claim C9 witness: a failing write on approving a placed order surfaces
the message and leaves the local list unchanged. -/
theorem claim9_witness :
    (updateOrderStatus ⟨some orderPlaced, Except.error "boom", true⟩ [orderPlaced]
        "p1" "Approved" none 4).result = .persistenceError "boom" ∧
    (updateOrderStatus ⟨some orderPlaced, Except.error "boom", true⟩ [orderPlaced]
        "p1" "Approved" none 4).orders = [orderPlaced] :=
  claim9_persistence_failure.1 ⟨some orderPlaced, Except.error "boom", true⟩
    [orderPlaced] "p1" "Approved" none 4 orderPlaced "boom" rfl rfl (by decide)

/-- Claim C10: an order with no `createdAt` and no parseable `orderDate` is
accepted by the date-range predicate for every pair of bounds, and hence
survives date-only filtering. -/
theorem claim10_missing_date_passes :
    (∀ (dr : DateRangeFilter) (o : Order),
      o.createdAt = none → o.orderDate = none → withinDateRange dr o = true) ∧
    (∀ (startD endD : Option Nat) (orders : List Order) (o : Order),
      o.createdAt = none → o.orderDate = none → o ∈ orders →
      o ∈ applyFilters orders { dateRange := ⟨startD, endD⟩ }) := by
  have part1 : ∀ (dr : DateRangeFilter) (o : Order),
      o.createdAt = none → o.orderDate = none → withinDateRange dr o = true := by
    intro dr o h1 h2
    simp [withinDateRange, effectiveDate, h1, h2]
  refine ⟨part1, ?_⟩
  intro startD endD orders o h1 h2 ho
  have key : applyFilters orders { dateRange := ⟨startD, endD⟩ } =
      if dateActive { dateRange := ⟨startD, endD⟩ } then
        orders.filter (fun x => withinDateRange ⟨startD, endD⟩ x)
      else orders := rfl
  rw [key]
  by_cases hd : dateActive { dateRange := ⟨startD, endD⟩ }
  · rw [if_pos hd]
    exact List.mem_filter.mpr ⟨ho, part1 ⟨startD, endD⟩ o h1 h2⟩
  · rw [if_neg hd]
    exact ho

/-- Claim C10 witness: a dateless order passes a fully bounded range and
stays in the date-filtered list. -/
theorem claim10_witness :
    (orderPlaced.createdAt = none ∧ orderPlaced.orderDate = none) ∧
    withinDateRange ⟨some 100, some 200⟩ orderPlaced = true ∧
    orderPlaced ∈ applyFilters [orderPlaced] { dateRange := ⟨some 100, some 200⟩ } :=
  ⟨⟨rfl, rfl⟩,
   claim10_missing_date_passes.1 ⟨some 100, some 200⟩ orderPlaced rfl rfl,
   claim10_missing_date_passes.2 (some 100) (some 200) [orderPlaced] orderPlaced
     rfl rfl (List.mem_singleton.mpr rfl)⟩

end ShopAdmin
